import Mathlib

/-
Verification of the transaction-monitoring engine of the Bittensor
transaction tracker (Backend/get_txs.py and Backend/main.py).

The Python code is shallowly embedded: records and pages become Lean
structures mirroring the JSON dictionaries the code inspects, the pure
helpers (`classify_transactions`, `get_transaction_id`, amount scaling)
become Lean functions, and the stateful parts (the snapshot cache, the
last-known-transactions singleton, the tweet history, the monitoring
loop) become explicit state-passing functions.  Python-specific
behaviours that the code relies on are modelled explicitly: dict
truthiness (an empty dict is falsy), `None == "s"` being `False`, the
`continue` in the rate-limit handler of the monitor loop, and the
broad `except` handlers that turn any internal error into a default
result.  Wall-clock times are rational parameters; `datetime.now()` /
`time.time()` values are passed in by the caller of each embedded
function.
-/

namespace TxTracker

/-- A JSON amount value as the code may encounter it: the feed nominally
delivers integers (rao), but the code defends against other shapes by
parsing with `int(...)`, which raises on a non-numeric string. -/
inductive AVal
  | ival (n : Int)
  | sval (s : String)
deriving DecidableEq, Repr

/-- The `from` / `to` endpoint object of a transfer record: its optional
`ss58` account string, and whether the dict holds any further keys
(`extra`), which matters only for Python truthiness of the dict. -/
structure AccountInfo where
  ss58 : Option String
  extra : Bool
deriving DecidableEq, Repr

/-- Python truthiness of an endpoint dict: a dict is truthy iff nonempty. -/
def AccountInfo.truthy (a : AccountInfo) : Bool := a.ss58.isSome || a.extra

/-- One transfer record, with exactly the fields the engine inspects:
`extrinsic_id`, the `from` / `to` endpoint objects (absent models both a
missing key and a `null` value), and `amount`. -/
structure Tx where
  extrinsic_id : Option String
  from_info : Option AccountInfo
  to_info : Option AccountInfo
  amount : Option AVal
deriving DecidableEq, Repr

/-- `tx.get("from")` / `tx.get("to")` pass the `not from_info or not
to_info` guard only when present and truthy (a missing key, a `null`
value, and an empty dict are all falsy). -/
def endpoint_present : Option AccountInfo → Bool
  | none => false
  | some a => a.truthy

/-- `from_info.get("ss58")`: the endpoint's account identifier, when any. -/
def endpoint_ss58 : Option AccountInfo → Option String
  | none => none
  | some a => a.ss58

/-- Python `==` between an optional string and a string: `None == s` is
`False` for every string `s`. -/
def optEqStr : Option String → String → Bool
  | none, _ => false
  | some s, t => s == t

/-- One page as appended by `get_all_transfers`: `truthy` is the Python
truthiness of the page dict, `data` its optional `"data"` list. -/
structure Page where
  truthy : Bool
  data : Option (List Tx)
deriving DecidableEq, Repr

/-- The page guard `if not page or not page.get("data"): continue`: a page
is skipped when the page dict is falsy or its `"data"` entry is missing,
`null` or the empty list. -/
def page_skipped (p : Page) : Bool :=
  !p.truthy || (match p.data with
    | none => true
    | some l => l.isEmpty)

/-- The records the inner loop of `classify_transactions` visits on page
`p`: `page.get("data", [])` unless the page guard skipped it. -/
def page_txs (p : Page) : List Tx :=
  if page_skipped p then [] else p.data.getD []

/-- The per-record guards of `classify_transactions`: skip when either
endpoint object is missing or falsy (`if not from_info or not to_info`),
then skip when either endpoint's ss58 equals the treasury
(`if from_addr == treasury or to_addr == treasury`). -/
def survives (treasury : String) (tx : Tx) : Bool :=
  endpoint_present tx.from_info && endpoint_present tx.to_info &&
  !(optEqStr (endpoint_ss58 tx.from_info) treasury) &&
  !(optEqStr (endpoint_ss58 tx.to_info) treasury)

/-- `classify_transactions(transactions, treasury, tracked_address)` from
Backend/get_txs.py.  Surviving records are appended to `filtered`; then
`if to_addr == tracked_address: transfers_out.append(tx)` and
`elif from_addr == tracked_address: transfers_in.append(tx)` — note the
code files a record whose destination is the tracked address under
`transfers_out`, and one whose source is the tracked address under
`transfers_in`.  Returns `(filtered, transfers_in, transfers_out)`. -/
def classify_transactions (transactions : List Page) (treasury tracked_address : String) :
    List Tx × List Tx × List Tx :=
  let txs := (transactions.map page_txs).flatten
  let filtered := txs.filter (survives treasury)
  let transfers_out := filtered.filter
    (fun tx => optEqStr (endpoint_ss58 tx.to_info) tracked_address)
  let transfers_in := filtered.filter
    (fun tx => !(optEqStr (endpoint_ss58 tx.to_info) tracked_address) &&
               optEqStr (endpoint_ss58 tx.from_info) tracked_address)
  (filtered, transfers_in, transfers_out)

/-- The record of the spec's worked example: `{from: X, to: A, amount: 2e9}`
with `X` not the treasury and `A` the tracked address. -/
def exTx : Tx :=
  { extrinsic_id := some "e1"
    from_info := some { ss58 := some "X", extra := false }
    to_info := some { ss58 := some "A", extra := false }
    amount := some (.ival 2000000000) }

/-- A record whose `from` endpoint dict is present and nonempty but holds
no `ss58` account identifier (for example `{"memo": 1}`). -/
def noSs58Tx : Tx :=
  { extrinsic_id := some "e2"
    from_info := some { ss58 := none, extra := true }
    to_info := some { ss58 := some "B", extra := false }
    amount := some (.ival 7) }

/-- `get_transaction_id(tx)` from Backend/main.py: the identity string
`f"{tx.get('extrinsic_id', '')}_{tx.get('from', {}).get('ss58', '')}_{tx.get('to', {}).get('ss58', '')}_{tx.get('amount', '')}"`.
An integer amount renders in decimal; a missing field renders as `""`. -/
def amount_str : Option AVal → String
  | none => ""
  | some (.ival n) => toString n
  | some (.sval s) => s

/-- The four-field identity key of a record (see `amount_str` for the
amount's rendering). -/
def get_transaction_id (tx : Tx) : String :=
  tx.extrinsic_id.getD "" ++ "_" ++ (endpoint_ss58 tx.from_info).getD "" ++ "_" ++
  (endpoint_ss58 tx.to_info).getD "" ++ "_" ++ amount_str tx.amount

/-- The `last_known_transactions` singleton: the most recently observed
buckets plus the `last_check` stamp (absent before the first cycle). -/
structure LastKnown where
  transfers_in : List Tx
  transfers_out : List Tx
  last_check : Option ℚ
deriving DecidableEq, Repr

/-- One of the two `for tx in current: if tx_id not in last_ids:
new.append(tx)` loops of `detect_new_transactions`: keeps, in order, the
records whose identity key is absent from `last_ids`.  (The code collects
`last_ids` into a set; membership is the same as in the underlying list.) -/
def find_new (last_ids : List String) : List Tx → List Tx
  | [] => []
  | tx :: rest =>
    if get_transaction_id tx ∈ last_ids then find_new last_ids rest
    else tx :: find_new last_ids rest

/-- `detect_new_transactions(current_transfers_in, current_transfers_out)`
from Backend/main.py: returns the pair of new-record lists and the updated
`last_known_transactions` singleton, which is unconditionally replaced with
the current buckets and stamped `last_check = datetime.now()` (`now`). -/
def detect_new_transactions (state : LastKnown) (now : ℚ)
    (current_transfers_in current_transfers_out : List Tx) :
    (List Tx × List Tx) × LastKnown :=
  let last_in_ids := state.transfers_in.map get_transaction_id
  let last_out_ids := state.transfers_out.map get_transaction_id
  ((find_new last_in_ids current_transfers_in,
    find_new last_out_ids current_transfers_out),
   { transfers_in := current_transfers_in
     transfers_out := current_transfers_out
     last_check := some now })

/-- The two kinds of fetch failure the engine distinguishes: an HTTP error
whose text contains "429" (upstream throttling), and any other HTTP error. -/
inductive FetchErr
  | rateLimited
  | other
deriving DecidableEq, Repr

/-- The HTTP errors `get_cached_or_fresh_data` raises: the 429
rate-limit `HTTPException` and the generic 500 one. -/
inductive HErr
  | http429
  | http500
deriving DecidableEq, Repr

/-- The `fresh_data` payload `get_cached_or_fresh_data` builds and caches:
the summary counts plus the two raw buckets. -/
structure Payload where
  total_after_filter : Nat
  transfers_in_count : Nat
  transfers_out_count : Nat
  transfers_in_raw : List Tx
  transfers_out_raw : List Tx
deriving DecidableEq, Repr, Inhabited

/-- The `cache` singleton: `data`, `timestamp`, `cache_duration` (300). -/
structure Cache where
  data : Option Payload
  timestamp : Option ℚ
  cache_duration : ℚ
deriving DecidableEq, Repr

/-- `is_cache_valid()` from Backend/main.py: false when `data` or
`timestamp` is `None`, otherwise `time.time() - timestamp <
cache_duration` (strict). -/
def is_cache_valid (c : Cache) (now : ℚ) : Bool :=
  match c.data, c.timestamp with
  | none, _ => false
  | some _, none => false
  | some _, some ts => decide (now - ts < c.cache_duration)

/-- The payload built from a successful fetch-and-classify
(`fresh_data` in `get_cached_or_fresh_data`). -/
def make_fresh_data (pages : List Page) (treasury address : String) : Payload :=
  let r := classify_transactions pages treasury address
  { total_after_filter := r.1.length
    transfers_in_count := r.2.1.length
    transfers_out_count := r.2.2.length
    transfers_in_raw := r.2.1
    transfers_out_raw := r.2.2 }

instance {ε α : Type} [DecidableEq ε] [DecidableEq α] : DecidableEq (Except ε α) :=
  fun a b =>
    match a, b with
    | .ok x, .ok y =>
      if h : x = y then .isTrue (by rw [h]) else .isFalse (by simp [h])
    | .error x, .error y =>
      if h : x = y then .isTrue (by rw [h]) else .isFalse (by simp [h])
    | .ok _, .error _ => .isFalse (by simp)
    | .error _, .ok _ => .isFalse (by simp)

/-- What one call to `get_cached_or_fresh_data` produces: the returned
payload or raised error, the cache singleton afterwards, and whether the
upstream fetch was invoked. -/
structure GetDataResult where
  result : Except HErr Payload
  cache : Cache
  fetched : Bool
deriving DecidableEq, Repr

/-- `get_cached_or_fresh_data(api_key, address, network, treasury)` from
Backend/main.py, with the outcome of `get_all_transfers` supplied as
`fetch_result`.  A valid cache short-circuits (the code returns
`cache["data"]`, non-`None` whenever the cache is valid; the `getD` default
is unreachable).  On a fetch success the classified payload is stored with
`time.time()` (`now`) and returned.  On an HTTP error containing "429",
the previous payload is returned as-is when one exists, else a 429 is
raised; any other HTTP error raises a 500.  The cache is written only in
the success branch. -/
def get_cached_or_fresh_data (c : Cache) (now : ℚ)
    (fetch_result : Except FetchErr (List Page)) (treasury address : String) :
    GetDataResult :=
  if is_cache_valid c now then
    { result := .ok (c.data.getD default), cache := c, fetched := false }
  else
    match fetch_result with
    | .ok pages =>
      let fresh := make_fresh_data pages treasury address
      { result := .ok fresh
        cache := { c with data := some fresh, timestamp := some now }
        fetched := true }
    | .error .rateLimited =>
      match c.data with
      | some d => { result := .ok d, cache := c, fetched := true }
      | none => { result := .error .http429, cache := c, fetched := true }
    | .error .other => { result := .error .http500, cache := c, fetched := true }

/-- The status recorded with a tweet-history entry by `post_tweet`. -/
inductive TweetStatus
  | test_success
  | success_v2
  | rate_limited
  | success_v1
  | failed
deriving DecidableEq, Repr

/-- One `tweet_history` entry (the timestamp/preview/error fields carry no
engine logic and are elided). -/
structure TweetEntry where
  status : TweetStatus
  text : String
deriving DecidableEq, Repr

/-- Outcome of one call to a publish API (`create_tweet` /
`update_status`): success, an error recognised as a rate limit ("429" or
"rate limit" in its text), or any other error. -/
inductive PublishResult
  | ok
  | rateLimited
  | err
deriving DecidableEq, Repr

/-- The status of the single entry `post_tweet` records: test mode logs a
`test_success` entry; otherwise API v2 is tried first, a v2 rate limit is
recorded as `rate_limited`, any other v2 error falls back to API v1.1,
whose own failure is either `rate_limited` or — re-raised and caught by the
outer handler — `failed`. -/
def tweet_entry_status (test_mode : Bool) (v2 v1 : PublishResult) : TweetStatus :=
  if test_mode then .test_success
  else
    match v2 with
    | .ok => .success_v2
    | .rateLimited => .rate_limited
    | .err =>
      match v1 with
      | .ok => .success_v1
      | .rateLimited => .rate_limited
      | .err => .failed

/-- `post_tweet(tweet_text)` from Backend/main.py, as a transformation of
the `tweet_history` list: exactly one entry is appended (every branch of
the function, the outer `except` included, appends exactly once), then
`if len(tweet_history) > 20: tweet_history.pop(0)` drops the oldest. -/
def post_tweet (test_mode : Bool) (v2 v1 : PublishResult) (tweet_text : String)
    (history : List TweetEntry) : List TweetEntry :=
  let h := history ++ [{ status := tweet_entry_status test_mode v2 v1, text := tweet_text }]
  if h.length > 20 then h.tail else h

/-- The monitor loop's mutable state: `AUTO_TWEET_SETTINGS["enabled"]`,
the local `consecutive_errors` counter, and whether the loop has exited
its `while` (via `break` or the `enabled` test). -/
structure LoopState where
  enabled : Bool
  consecutiveErrors : Nat
  stopped : Bool
deriving DecidableEq, Repr

/-- The outcome of one fetch-classify-tweet attempt inside
`auto_tweet_new_transactions`: success, an HTTP error containing "429",
or any other exception. -/
inductive Outcome
  | success
  | rateLimited
  | otherError
deriving DecidableEq, Repr

/-- One iteration of the `while` body of `auto_tweet_new_transactions`.
On success `consecutive_errors = 0`, so the later threshold check cannot
fire.  On a "429" HTTP error the counter is incremented and the handler
executes `continue`, skipping the threshold check entirely.  On any other
exception the counter is incremented and the check
`if consecutive_errors >= max_consecutive_errors` (5) runs: when it fires,
`AUTO_TWEET_SETTINGS["enabled"] = False` and the loop breaks. -/
def auto_tweet_step (s : LoopState) (o : Outcome) : LoopState :=
  match o with
  | .success => { s with consecutiveErrors := 0 }
  | .rateLimited => { s with consecutiveErrors := s.consecutiveErrors + 1 }
  | .otherError =>
    let e := s.consecutiveErrors + 1
    if 5 ≤ e then { enabled := false, consecutiveErrors := e, stopped := true }
    else { s with consecutiveErrors := e }

/-- Whether the loop starts another fetch cycle from state `s`: it must
not have broken out, and `while AUTO_TWEET_SETTINGS["enabled"]` must hold. -/
def loop_can_fetch (s : LoopState) : Bool := !s.stopped && s.enabled

/-- Runs `auto_tweet_new_transactions` against a list of per-cycle
outcomes: each outcome is consumed by one fetch cycle as long as the loop
is still live. -/
def auto_tweet_run (s : LoopState) : List Outcome → LoopState
  | [] => s
  | o :: rest =>
    if loop_can_fetch s then auto_tweet_run (auto_tweet_step s o) rest else s

/-- How many fetch cycles `auto_tweet_run` actually starts on the given
outcome list. -/
def auto_tweet_fetches (s : LoopState) : List Outcome → Nat
  | [] => 0
  | o :: rest =>
    if loop_can_fetch s then auto_tweet_fetches (auto_tweet_step s o) rest + 1 else 0

/-- The loop state when `auto_tweet_new_transactions` is entered:
enabled, `consecutive_errors = 0`, not stopped. -/
def initLoopState : LoopState :=
  { enabled := true, consecutiveErrors := 0, stopped := false }

/-- The direction tag passed to `create_transaction_tweet`. -/
inductive Direction
  | dirIn
  | dirOut
deriving DecidableEq, Repr

/-- The sequence of (record, direction) notifications one successful cycle
of `auto_tweet_new_transactions` dispatches, given the prior
`last_known_transactions` state and the cycle's classified buckets.  The
cycle first runs `detect_new_transactions`; then — under the condition
`not new_in and not new_out and len(transfers_in) > 0 or
len(transfers_out) > 0` (Python parses this as `(no new records and
inbound nonempty) or outbound nonempty`) — it tweets the first 3 existing
inbound and first 3 existing outbound records; then every new inbound and
every new outbound record, in order.  (`create_transaction_tweet` returns
text for every record in this pure model, so the `if tweet_text:` guards
always pass.) -/
def auto_tweet_cycle_dispatches (state : LastKnown) (now : ℚ)
    (transfers_in transfers_out : List Tx) : List (Tx × Direction) :=
  let det := detect_new_transactions state now transfers_in transfers_out
  let new_in := det.1.1
  let new_out := det.1.2
  let existing_block :=
    if (new_in.isEmpty && new_out.isEmpty && decide (0 < transfers_in.length))
        || decide (0 < transfers_out.length) then
      (transfers_in.take 3).map (fun tx => (tx, Direction.dirIn)) ++
      (transfers_out.take 3).map (fun tx => (tx, Direction.dirOut))
    else []
  existing_block ++ new_in.map (fun tx => (tx, Direction.dirIn)) ++
    new_out.map (fun tx => (tx, Direction.dirOut))

/-- Python truthiness of `tx.get('amount')`: `None`, `0` and `""` are
falsy; everything else the model represents is truthy. -/
def aval_truthy : Option AVal → Bool
  | none => false
  | some (.ival n) => decide (n ≠ 0)
  | some (.sval s) => !(s == "")

/-- `int(tx.get('amount', 0))`: an integer passes through, a string is
parsed (raising `ValueError` — the error case — when it does not parse),
a missing field defaults to 0. -/
def pyInt : Option AVal → Except Unit Int
  | none => .ok 0
  | some (.ival n) => .ok n
  | some (.sval s) =>
    match s.toInt? with
    | some n => .ok n
    | none => .error ()

/-- The rounding of Python's `round(x, n)`: round half to even. -/
def round_half_even (q : ℚ) : ℤ :=
  if q - ⌊q⌋ < 1/2 then ⌊q⌋
  else if 1/2 < q - ⌊q⌋ then ⌊q⌋ + 1
  else if ⌊q⌋ % 2 = 0 then ⌊q⌋ else ⌊q⌋ + 1

/-- `round(x, 4)` over exact rationals (the code computes with binary
floats; we model real-number arithmetic). -/
def pyround4 (q : ℚ) : ℚ := (round_half_even (q * 10000) : ℚ) / 10000

/-- `round(int(tx.get('amount', 0)) / 1e9, 4) if tx.get('amount') else 0`:
the per-record term of the daily-total sums. -/
def tx_amount (tx : Tx) : Except Unit ℚ :=
  if aval_truthy tx.amount then
    (pyInt tx.amount).map (fun n => pyround4 ((n : ℚ) / 1000000000))
  else .ok 0

/-- One of the two accumulation loops of `get_daily_transfer_totals`:
sums the scaled amounts, propagating the first parse error. -/
def sum_tx_amounts : List Tx → Except Unit ℚ
  | [] => .ok 0
  | tx :: rest => do
    let a ← tx_amount tx
    let s ← sum_tx_amounts rest
    pure (a + s)

/-- The result dict of `get_daily_transfer_totals`. -/
structure DailyTotals where
  tao_in : ℚ
  tao_out : ℚ
deriving DecidableEq, Repr

/-- The body of `get_daily_transfer_totals` inside its `try`: classify the
pages, sum and round each bucket's scaled amounts; any parse error
escapes to the handler. -/
def daily_totals_body (pages : List Page) (treasury address : String) :
    Except Unit DailyTotals := do
  let r := classify_transactions pages treasury address
  let daily_in ← sum_tx_amounts r.2.1
  let daily_out ← sum_tx_amounts r.2.2
  pure { tao_in := pyround4 daily_in, tao_out := pyround4 daily_out }

/-- `get_daily_transfer_totals(existing_data)` from Backend/main.py.
`existing_data = some pages` models a provided page list; `none` models the
`None` default.  `cache_has_fresh_data` models `cache["data"] and
cache["timestamp"] and (time.time() - cache["timestamp"] < 300)`.
Branching follows the source: a truthy `existing_data` is used directly
(an empty list is falsy and falls through); the cache branch hands the
cached summary dict — not a page list — to `classify_transactions`, which
raises `AttributeError` on the dict's first key, caught by the outer
handler, hence zeros; with no source at all the code returns zeros; and
the outer `except Exception` turns any error in the body into zeros. -/
def get_daily_transfer_totals (existing_data : Option (List Page))
    (cache_has_fresh_data : Bool) (treasury address : String) : DailyTotals :=
  match existing_data with
  | some pages =>
    if pages.isEmpty then
      if cache_has_fresh_data then { tao_in := 0, tao_out := 0 }
      else { tao_in := 0, tao_out := 0 }
    else
      match daily_totals_body pages treasury address with
      | .ok t => t
      | .error _ => { tao_in := 0, tao_out := 0 }
  | none =>
    if cache_has_fresh_data then { tao_in := 0, tao_out := 0 }
    else { tao_in := 0, tao_out := 0 }

/-- A record with no `from` endpoint at all (missing key or `null`). -/
def noFromTx : Tx :=
  { extrinsic_id := none
    from_info := none
    to_info := some { ss58 := some "B", extra := false }
    amount := none }

/-- A transfer already present in the last-known state of the worked
counterexamples. -/
def seenTx : Tx :=
  { extrinsic_id := some "s1"
    from_info := some { ss58 := some "P", extra := false }
    to_info := some { ss58 := some "Q", extra := false }
    amount := some (.ival 1) }

/-- A transfer appearing for the first time in the current outbound
bucket of the worked counterexamples. -/
def freshOutTx : Tx :=
  { extrinsic_id := some "s2"
    from_info := some { ss58 := some "P", extra := false }
    to_info := some { ss58 := some "R", extra := false }
    amount := some (.ival 2) }

/-- A concrete cached payload for the cache witnesses. -/
def exPayload : Payload :=
  { total_after_filter := 1
    transfers_in_count := 0
    transfers_out_count := 1
    transfers_in_raw := []
    transfers_out_raw := [exTx] }

/- ------------------------------------------------------------------ -/
/- Helper lemmas                                                      -/
/- ------------------------------------------------------------------ -/

theorem optEqStr_eq_true_iff (o : Option String) (t : String) :
    optEqStr o t = true ↔ o = some t := by
  cases o <;> simp [optEqStr]

theorem optEqStr_eq_false_iff (o : Option String) (t : String) :
    optEqStr o t = false ↔ o ≠ some t := by
  rw [← Bool.not_eq_true, not_iff_not]
  exact optEqStr_eq_true_iff o t

theorem mem_find_new (ids : List String) (l : List Tx) (tx : Tx) :
    tx ∈ find_new ids l ↔ tx ∈ l ∧ get_transaction_id tx ∉ ids := by
  induction l with
  | nil => simp [find_new]
  | cons hd tl ih =>
    by_cases h : get_transaction_id hd ∈ ids
    · rw [find_new, if_pos h, ih, List.mem_cons]
      constructor
      · rintro ⟨htl, hnot⟩
        exact ⟨Or.inr htl, hnot⟩
      · rintro ⟨he | htl, hnot⟩
        · subst he
          exact absurd h hnot
        · exact ⟨htl, hnot⟩
    · rw [find_new, if_neg h, List.mem_cons, List.mem_cons]
      constructor
      · rintro (he | hmem)
        · subst he
          exact ⟨Or.inl rfl, h⟩
        · obtain ⟨htl, hnot⟩ := ih.mp hmem
          exact ⟨Or.inr htl, hnot⟩
      · rintro ⟨he | htl, hnot⟩
        · exact Or.inl he
        · exact Or.inr (ih.mpr ⟨htl, hnot⟩)

theorem find_new_all_known (ids : List String) (l : List Tx)
    (h : ∀ tx ∈ l, get_transaction_id tx ∈ ids) : find_new ids l = [] := by
  induction l with
  | nil => rfl
  | cons hd tl ih =>
    rw [find_new, if_pos (h hd (List.mem_cons_self hd tl))]
    exact ih (fun tx htx => h tx (List.mem_cons_of_mem hd htx))

theorem pair_mem_map_dir (l : List Tx) (d d' : Direction) (tx : Tx) :
    ((tx, d) ∈ l.map (fun t => (t, d'))) ↔ tx ∈ l ∧ d' = d := by
  constructor
  · rintro hm
    obtain ⟨a, ha, heq⟩ := List.mem_map.mp hm
    obtain ⟨h1, h2⟩ := Prod.mk.injEq .. ▸ heq
    exact ⟨h1 ▸ ha, h2⟩
  · rintro ⟨hmem, rfl⟩
    exact List.mem_map.mpr ⟨tx, hmem, rfl⟩

theorem auto_tweet_run_of_stopped (s : LoopState) (hs : s.stopped = true)
    (os : List Outcome) :
    auto_tweet_run s os = s ∧ auto_tweet_fetches s os = 0 := by
  cases os <;> simp [auto_tweet_run, auto_tweet_fetches, loop_can_fetch, hs]

theorem append_one_trim (l : List TweetEntry) (e : TweetEntry)
    (hlen : l.length ≤ 20) :
    (if (l ++ [e]).length > 20 then (l ++ [e]).tail else l ++ [e]) =
      (if l.length = 20 then l.tail else l) ++ [e] ∧
    (if (l ++ [e]).length > 20 then (l ++ [e]).tail else l ++ [e]).length ≤ 20 ∧
    (if (l ++ [e]).length > 20 then (l ++ [e]).tail else l ++ [e]) <:+ l ++ [e] := by
  by_cases h20 : l.length = 20
  · have hcond : (l ++ [e]).length > 20 := by simp [h20]
    have hne : l ≠ [] := by
      intro h
      rw [h] at h20
      simp at h20
    have htail : (l ++ [e]).tail = l.tail ++ [e] := by
      rcases l with _ | ⟨a, t⟩
      · exact absurd rfl hne
      · rfl
    rw [if_pos hcond, htail, if_pos h20]
    refine ⟨rfl, ?_, ?_⟩
    · rw [← htail, List.length_tail]
      simp [h20]
    · rw [← htail]
      exact List.tail_suffix _
  · have hcond : ¬(l ++ [e]).length > 20 := by
      simp
      omega
    rw [if_neg hcond, if_neg h20]
    refine ⟨rfl, ?_, List.suffix_refl _⟩
    simp
    omega

/- ------------------------------------------------------------------ -/
/- Claim theorems                                                     -/
/- ------------------------------------------------------------------ -/

/-- C1 (counterexample).  The claim asserts that for tracked address `A`,
a record `{from: X, to: A, amount: 2e9}` with `X` not the treasury yields
`inbound = [that record]` and `outbound = []`.  On the code it is the
other way round: `classify_transactions` appends a record whose
destination equals the tracked address to `transfers_out` (the outbound
bucket, third component) and leaves `transfers_in` (the inbound bucket,
second component) empty. -/
theorem classify_example_buckets_swapped :
    (classify_transactions [⟨true, some [exTx]⟩] "T" "A").2.1 = [] ∧
    (classify_transactions [⟨true, some [exTx]⟩] "T" "A").2.2 = [exTx] :=
  ⟨rfl, rfl⟩

/-- C1 (amended).  For every page sequence, treasury and tracked address,
`classify_transactions` places a surviving record into the **outbound**
bucket (`transfers_out`) iff its destination address equals the tracked
address, and into the **inbound** bucket (`transfers_in`) iff its source
address equals the tracked address and its destination does not (the
destination check takes precedence), so a record is in at most one
bucket. -/
theorem classify_bucket_characterization (pages : List Page)
    (treasury tracked_address : String) (tx : Tx) :
    (tx ∈ (classify_transactions pages treasury tracked_address).2.2 ↔
       tx ∈ (classify_transactions pages treasury tracked_address).1 ∧
       endpoint_ss58 tx.to_info = some tracked_address) ∧
    (tx ∈ (classify_transactions pages treasury tracked_address).2.1 ↔
       tx ∈ (classify_transactions pages treasury tracked_address).1 ∧
       endpoint_ss58 tx.to_info ≠ some tracked_address ∧
       endpoint_ss58 tx.from_info = some tracked_address) ∧
    ¬(tx ∈ (classify_transactions pages treasury tracked_address).2.1 ∧
      tx ∈ (classify_transactions pages treasury tracked_address).2.2) := by
  simp only [classify_transactions, List.mem_filter, Bool.and_eq_true,
    Bool.not_eq_true', optEqStr_eq_true_iff, optEqStr_eq_false_iff]
  tauto

/-- C6 (counterexample).  The claim asserts that a record missing either
endpoint's account identifier appears in none of the three outputs.  A
record whose `from` dict is present and nonempty but carries no `ss58`
identifier is not skipped: it survives into `filtered`. -/
theorem missing_ss58_record_in_filtered :
    endpoint_ss58 noSs58Tx.from_info = none ∧
    (classify_transactions [⟨true, some [noSs58Tx]⟩] "T" "A").1 = [noSs58Tx] :=
  ⟨rfl, rfl⟩

/-- C6 (amended).  The classifier skips, without error, any record whose
`from` or `to` endpoint object is missing or empty (Python-falsy): such a
record appears in none of `filtered`, `inbound` (`transfers_in`) or
`outbound` (`transfers_out`).  (A record whose endpoint object is present
and nonempty but lacks the `ss58` identifier is, by the counterexample,
not skipped.)  The embedding of `classify_transactions` is a total
function, so no input makes it raise. -/
theorem classify_skips_absent_endpoints (pages : List Page)
    (treasury tracked_address : String) (tx : Tx)
    (h : endpoint_present tx.from_info = false ∨
         endpoint_present tx.to_info = false) :
    tx ∉ (classify_transactions pages treasury tracked_address).1 ∧
    tx ∉ (classify_transactions pages treasury tracked_address).2.1 ∧
    tx ∉ (classify_transactions pages treasury tracked_address).2.2 := by
  have hsurv : survives treasury tx = false := by
    rcases h with h | h <;> simp [survives, h]
  simp only [classify_transactions, List.mem_filter, Bool.and_eq_true]
  refine ⟨fun hm => ?_, fun hm => ?_, fun hm => ?_⟩
  · rw [hsurv] at hm
    exact Bool.false_ne_true hm.2
  · rw [hsurv] at hm
    exact Bool.false_ne_true hm.1.2
  · rw [hsurv] at hm
    exact Bool.false_ne_true hm.1.2

/-- C6 (witness): the amended theorem applied to a concrete record with
no `from` endpoint, inside a page that does list it. -/
theorem classify_skips_absent_endpoints_witness :
    noFromTx ∉ (classify_transactions [⟨true, some [noFromTx]⟩] "T" "A").1 ∧
    noFromTx ∉ (classify_transactions [⟨true, some [noFromTx]⟩] "T" "A").2.1 ∧
    noFromTx ∉ (classify_transactions [⟨true, some [noFromTx]⟩] "T" "A").2.2 :=
  classify_skips_absent_endpoints [⟨true, some [noFromTx]⟩] "T" "A" noFromTx
    (Or.inl rfl)

/-- C8.  No record whose source or destination ss58 equals the treasury
address appears in any of the three outputs of `classify_transactions`. -/
theorem treasury_excluded_from_outputs (pages : List Page)
    (treasury tracked_address : String) (tx : Tx)
    (h : tx ∈ (classify_transactions pages treasury tracked_address).1 ∨
         tx ∈ (classify_transactions pages treasury tracked_address).2.1 ∨
         tx ∈ (classify_transactions pages treasury tracked_address).2.2) :
    endpoint_ss58 tx.from_info ≠ some treasury ∧
    endpoint_ss58 tx.to_info ≠ some treasury := by
  have hsurv : survives treasury tx = true := by
    simp only [classify_transactions, List.mem_filter, Bool.and_eq_true] at h
    rcases h with h | h | h
    · exact h.2
    · exact h.1.2
    · exact h.1.2
  simp only [survives, Bool.and_eq_true, Bool.not_eq_true',
    optEqStr_eq_false_iff] at hsurv
  exact ⟨hsurv.1.2, hsurv.2⟩

/-- C8 (witness): the treasury-exclusion theorem applied to the concrete
example record, which does appear in `filtered`. -/
theorem treasury_excluded_witness :
    endpoint_ss58 exTx.from_info ≠ some "T" ∧
    endpoint_ss58 exTx.to_info ≠ some "T" :=
  treasury_excluded_from_outputs [⟨true, some [exTx]⟩] "T" "A" exTx
    (Or.inl (by decide))

/-- C4.  `detect_new_transactions` returns exactly the records of the
current buckets whose four-field identity key is absent from the key set
of the corresponding prior bucket, then unconditionally replaces the
last-known state with the current buckets and stamps `last_check`;
consequently, immediately re-running detection with the same current
buckets yields two empty new-sets. -/
theorem detect_new_exact_and_idempotent (state : LastKnown) (now now2 : ℚ)
    (current_in current_out : List Tx) :
    (∀ tx, tx ∈ (detect_new_transactions state now current_in current_out).1.1 ↔
       tx ∈ current_in ∧
       get_transaction_id tx ∉ state.transfers_in.map get_transaction_id) ∧
    (∀ tx, tx ∈ (detect_new_transactions state now current_in current_out).1.2 ↔
       tx ∈ current_out ∧
       get_transaction_id tx ∉ state.transfers_out.map get_transaction_id) ∧
    (detect_new_transactions state now current_in current_out).2 =
      { transfers_in := current_in, transfers_out := current_out,
        last_check := some now } ∧
    (detect_new_transactions
       (detect_new_transactions state now current_in current_out).2 now2
       current_in current_out).1 = ([], []) := by
  refine ⟨fun tx => mem_find_new _ _ tx, fun tx => mem_find_new _ _ tx, rfl, ?_⟩
  simp only [detect_new_transactions]
  rw [find_new_all_known _ _ (fun tx htx => List.mem_map_of_mem _ htx),
    find_new_all_known _ _ (fun tx htx => List.mem_map_of_mem _ htx)]

/-- C2 (counterexample).  The claim asserts the loop reaches DISABLED
whenever `consecutive_errors` reaches 5, regardless of failure kind, and
never starts another fetch cycle while the counter is at least 5.  After
five consecutive rate-limited (429) failures the handler's `continue` has
skipped the threshold check every time: the loop is still enabled and not
stopped with the counter at 5, and on a sixth rate-limited outcome it
starts a sixth fetch cycle. -/
theorem rate_limited_bypasses_disable_check :
    auto_tweet_run initLoopState (List.replicate 5 .rateLimited) =
      { enabled := true, consecutiveErrors := 5, stopped := false } ∧
    auto_tweet_fetches initLoopState (List.replicate 6 .rateLimited) = 6 := by
  decide

/-- C2 (amended).  A rate-limited failure only increments the counter and
retries (the `continue` skips the disable check), so the loop can keep
fetching with `consecutive_errors ≥ 5`; a non-rate-limited failure that
brings the counter to 5 or more disables the loop (`enabled := false`)
and breaks out; a stopped loop never runs another fetch cycle; and five
consecutive non-rate-limited failures from a fresh start disable the loop
after exactly five fetch cycles, whatever outcomes would follow. -/
theorem loop_disable_semantics (s : LoopState) (os : List Outcome) :
    (auto_tweet_step s .rateLimited =
       { s with consecutiveErrors := s.consecutiveErrors + 1 }) ∧
    (5 ≤ s.consecutiveErrors + 1 →
       auto_tweet_step s .otherError =
         { enabled := false, consecutiveErrors := s.consecutiveErrors + 1,
           stopped := true }) ∧
    (s.stopped = true →
       auto_tweet_run s os = s ∧ auto_tweet_fetches s os = 0) ∧
    (auto_tweet_run initLoopState (List.replicate 5 .otherError ++ os) =
       { enabled := false, consecutiveErrors := 5, stopped := true } ∧
     auto_tweet_fetches initLoopState (List.replicate 5 .otherError ++ os) = 5) := by
  refine ⟨rfl, fun h => by simp [auto_tweet_step, h],
    fun hs => auto_tweet_run_of_stopped s hs os, ?_⟩
  have hrep : List.replicate 5 Outcome.otherError =
      [.otherError, .otherError, .otherError, .otherError, .otherError] := rfl
  have habs := auto_tweet_run_of_stopped
    { enabled := false, consecutiveErrors := 5, stopped := true } rfl os
  rw [hrep]
  simp [auto_tweet_run, auto_tweet_fetches, auto_tweet_step, loop_can_fetch,
    initLoopState, habs.1, habs.2]

/-- C2 (witness): the amended theorem instantiated at a loop state four
errors deep, whose next non-rate-limited failure disables the loop. -/
theorem loop_disable_semantics_witness :
    auto_tweet_step { enabled := true, consecutiveErrors := 4, stopped := false }
      .otherError =
      { enabled := false, consecutiveErrors := 5, stopped := true } :=
  (loop_disable_semantics
    { enabled := true, consecutiveErrors := 4, stopped := false } []).2.1
    (by norm_num)

/-- C3 (counterexample).  The claim asserts a successful cycle dispatches
notifications only for transfers not previously seen.  With last-known
inbound `[seenTx]`, current inbound `[seenTx]` and current outbound
`[freshOutTx]`, there are no new inbound records, yet the cycle's
"existing transactions" block — whose condition
`not new_in and not new_out and len(transfers_in) > 0 or
len(transfers_out) > 0` is true whenever the outbound bucket is
nonempty — re-dispatches `seenTx`, whose identity key is already present
in the last-known state (and dispatches `freshOutTx` twice). -/
theorem cycle_redispatches_seen_transaction :
    get_transaction_id seenTx ∈ [seenTx].map get_transaction_id ∧
    auto_tweet_cycle_dispatches
        { transfers_in := [seenTx], transfers_out := [], last_check := none }
        0 [seenTx] [freshOutTx] =
      [(seenTx, Direction.dirIn), (freshOutTx, Direction.dirOut),
       (freshOutTx, Direction.dirOut)] := by
  decide

/-- C3 (amended).  In every successful polling cycle the loop dispatches
a notification for every new inbound record and then every new outbound
record, in original sequence order (the dispatch list ends with exactly
the new inbound records followed by the new outbound records), and every
dispatched record belongs to the corresponding current bucket; but it
does not dispatch only unseen transfers: when no new records were
detected and the inbound bucket is nonempty, or whenever the outbound
bucket is nonempty, it first re-dispatches the first three existing
inbound and first three existing outbound records — and only records of
that prefix, under that condition, can be re-dispatches of
previously-seen transfers. -/
theorem cycle_dispatch_characterization (state : LastKnown) (now : ℚ)
    (transfers_in transfers_out : List Tx) :
    (∀ tx, tx ∈ transfers_in →
       get_transaction_id tx ∉ state.transfers_in.map get_transaction_id →
       (tx, Direction.dirIn) ∈
         auto_tweet_cycle_dispatches state now transfers_in transfers_out) ∧
    (∀ tx, tx ∈ transfers_out →
       get_transaction_id tx ∉ state.transfers_out.map get_transaction_id →
       (tx, Direction.dirOut) ∈
         auto_tweet_cycle_dispatches state now transfers_in transfers_out) ∧
    (∀ tx, (tx, Direction.dirIn) ∈
         auto_tweet_cycle_dispatches state now transfers_in transfers_out →
       tx ∈ transfers_in) ∧
    (∀ tx, (tx, Direction.dirOut) ∈
         auto_tweet_cycle_dispatches state now transfers_in transfers_out →
       tx ∈ transfers_out) ∧
    (∀ tx, (tx, Direction.dirIn) ∈
         auto_tweet_cycle_dispatches state now transfers_in transfers_out →
       get_transaction_id tx ∈ state.transfers_in.map get_transaction_id →
       tx ∈ transfers_in.take 3 ∧
       (((find_new (state.transfers_in.map get_transaction_id)
            transfers_in).isEmpty &&
         (find_new (state.transfers_out.map get_transaction_id)
            transfers_out).isEmpty &&
         decide (0 < transfers_in.length)) ||
        decide (0 < transfers_out.length)) = true) ∧
    (∀ tx, (tx, Direction.dirOut) ∈
         auto_tweet_cycle_dispatches state now transfers_in transfers_out →
       get_transaction_id tx ∈ state.transfers_out.map get_transaction_id →
       tx ∈ transfers_out.take 3 ∧
       (((find_new (state.transfers_in.map get_transaction_id)
            transfers_in).isEmpty &&
         (find_new (state.transfers_out.map get_transaction_id)
            transfers_out).isEmpty &&
         decide (0 < transfers_in.length)) ||
        decide (0 < transfers_out.length)) = true) ∧
    (∃ pre, auto_tweet_cycle_dispatches state now transfers_in transfers_out =
       pre ++
       (find_new (state.transfers_in.map get_transaction_id)
          transfers_in).map (fun tx => (tx, Direction.dirIn)) ++
       (find_new (state.transfers_out.map get_transaction_id)
          transfers_out).map (fun tx => (tx, Direction.dirOut))) := by
  simp only [auto_tweet_cycle_dispatches, detect_new_transactions]
  constructor
  · intro tx hmem hnew
    simp only [List.mem_append, pair_mem_map_dir]
    exact Or.inl (Or.inr ⟨(mem_find_new _ _ tx).mpr ⟨hmem, hnew⟩, trivial⟩)
  constructor
  · intro tx hmem hnew
    simp only [List.mem_append, pair_mem_map_dir]
    exact Or.inr ⟨(mem_find_new _ _ tx).mpr ⟨hmem, hnew⟩, trivial⟩
  constructor
  · intro tx hmem
    simp only [List.mem_append] at hmem
    rcases hmem with (hex | hin) | hout
    · split at hex
      · simp only [List.mem_append, pair_mem_map_dir] at hex
        rcases hex with ⟨htake, _⟩ | ⟨_, hcontr⟩
        · exact List.take_subset 3 transfers_in htake
        · exact absurd hcontr (by simp)
      · simp at hex
    · exact ((mem_find_new _ _ tx).mp ((pair_mem_map_dir _ _ _ tx).mp hin).1).1
    · exact absurd ((pair_mem_map_dir _ _ _ tx).mp hout).2 (by simp)
  constructor
  · intro tx hmem
    simp only [List.mem_append] at hmem
    rcases hmem with (hex | hin) | hout
    · split at hex
      · simp only [List.mem_append, pair_mem_map_dir] at hex
        rcases hex with ⟨_, hcontr⟩ | ⟨htake, _⟩
        · exact absurd hcontr (by simp)
        · exact List.take_subset 3 transfers_out htake
      · simp at hex
    · exact absurd ((pair_mem_map_dir _ _ _ tx).mp hin).2 (by simp)
    · exact ((mem_find_new _ _ tx).mp ((pair_mem_map_dir _ _ _ tx).mp hout).1).1
  constructor
  · intro tx hmem hknown
    simp only [List.mem_append] at hmem
    rcases hmem with (hex | hin) | hout
    · refine ⟨?_, ?_⟩
      · split at hex
        · simp only [List.mem_append, pair_mem_map_dir] at hex
          rcases hex with ⟨htake, _⟩ | ⟨_, hcontr⟩
          · exact htake
          · exact absurd hcontr (by simp)
        · simp at hex
      · by_contra hcond
        rw [Bool.not_eq_true] at hcond
        rw [if_neg (by rw [hcond]; exact Bool.false_ne_true)] at hex
        simp at hex
    · exact absurd hknown ((mem_find_new _ _ tx).mp
        ((pair_mem_map_dir _ _ _ tx).mp hin).1).2
    · exact absurd ((pair_mem_map_dir _ _ _ tx).mp hout).2 (by simp)
  constructor
  · intro tx hmem hknown
    simp only [List.mem_append] at hmem
    rcases hmem with (hex | hin) | hout
    · refine ⟨?_, ?_⟩
      · split at hex
        · simp only [List.mem_append, pair_mem_map_dir] at hex
          rcases hex with ⟨_, hcontr⟩ | ⟨htake, _⟩
          · exact absurd hcontr (by simp)
          · exact htake
        · simp at hex
      · by_contra hcond
        rw [Bool.not_eq_true] at hcond
        rw [if_neg (by rw [hcond]; exact Bool.false_ne_true)] at hex
        simp at hex
    · exact absurd ((pair_mem_map_dir _ _ _ tx).mp hin).2 (by simp)
    · exact absurd hknown ((mem_find_new _ _ tx).mp
        ((pair_mem_map_dir _ _ _ tx).mp hout).1).2
  · exact ⟨_, rfl⟩

/-- C5.  When a refresh attempt fails (it happens only when the cache is
not valid): a rate-limited failure with a prior cached payload returns
that payload unchanged without raising; a rate-limited failure with no
prior payload raises the 429 error; any other fetch failure raises the
generic 500 error and never serves stale data; and every failure leaves
the cache entry unchanged — the cache is overwritten only when the fetch
succeeded. -/
theorem stale_fallback_and_error_propagation (c : Cache) (now : ℚ)
    (treasury address : String) (d : Payload)
    (hv : is_cache_valid c now = false) :
    (c.data = some d →
       get_cached_or_fresh_data c now (.error .rateLimited) treasury address =
         { result := .ok d, cache := c, fetched := true }) ∧
    (c.data = none →
       get_cached_or_fresh_data c now (.error .rateLimited) treasury address =
         { result := .error .http429, cache := c, fetched := true }) ∧
    (get_cached_or_fresh_data c now (.error .other) treasury address =
       { result := .error .http500, cache := c, fetched := true }) ∧
    (∀ fr : Except FetchErr (List Page),
       (get_cached_or_fresh_data c now fr treasury address).cache ≠ c →
       ∃ pages, fr = .ok pages) := by
  refine ⟨fun hd => ?_, fun hd => ?_, ?_, fun fr hne => ?_⟩
  · simp [get_cached_or_fresh_data, hv, hd]
  · simp [get_cached_or_fresh_data, hv, hd]
  · simp [get_cached_or_fresh_data, hv]
  · rcases fr with e | pages
    · exfalso
      apply hne
      rcases e with _ | _
      · rcases hd : c.data with _ | d'
        · simp [get_cached_or_fresh_data, hv, hd]
        · simp [get_cached_or_fresh_data, hv, hd]
      · simp [get_cached_or_fresh_data, hv]
    · exact ⟨pages, rfl⟩

/-- C5 (witness): a stale cache (stored at 0, read at 1000, ttl 300)
holding `exPayload` is served unchanged on a rate-limited refresh
failure, with the cache entry untouched. -/
theorem stale_fallback_witness :
    get_cached_or_fresh_data
        { data := some exPayload, timestamp := some 0, cache_duration := 300 }
        1000 (.error .rateLimited) "T" "A" =
      { result := .ok exPayload
        cache := { data := some exPayload, timestamp := some 0,
                   cache_duration := 300 }
        fetched := true } :=
  (stale_fallback_and_error_propagation
    { data := some exPayload, timestamp := some 0, cache_duration := 300 }
    1000 "T" "A" exPayload (by norm_num [is_cache_valid])).1 rfl

/-- C7.  With the 300-second ttl: a read at `now` of a payload stored at
`t0` with `now - t0 < 300` returns the stored payload unchanged without
invoking fetch and leaves the cache as it was; a read past the ttl, or
with no stored payload, invokes fetch; and when the cache is not valid
and the fetch succeeds, the fresh classified payload is stored (with
timestamp `now`) and returned. -/
theorem cache_freshness_read_path (c : Cache) (now t0 : ℚ) (p : Payload)
    (fr : Except FetchErr (List Page)) (treasury address : String)
    (pages : List Page) (hdur : c.cache_duration = 300) :
    (c.data = some p → c.timestamp = some t0 → now - t0 < 300 →
       get_cached_or_fresh_data c now fr treasury address =
         { result := .ok p, cache := c, fetched := false }) ∧
    (c.timestamp = some t0 → 300 ≤ now - t0 →
       (get_cached_or_fresh_data c now fr treasury address).fetched = true) ∧
    (c.data = none →
       (get_cached_or_fresh_data c now fr treasury address).fetched = true) ∧
    (is_cache_valid c now = false → fr = .ok pages →
       get_cached_or_fresh_data c now fr treasury address =
         ⟨.ok (make_fresh_data pages treasury address),
          ⟨some (make_fresh_data pages treasury address), some now,
           c.cache_duration⟩, true⟩) := by
  have fetchedOnInvalid : is_cache_valid c now = false →
      (get_cached_or_fresh_data c now fr treasury address).fetched = true := by
    intro hv
    rcases fr with e | pages'
    · rcases e with _ | _
      · rcases hd : c.data with _ | d'
        · simp [get_cached_or_fresh_data, hv, hd]
        · simp [get_cached_or_fresh_data, hv, hd]
      · simp [get_cached_or_fresh_data, hv]
    · simp [get_cached_or_fresh_data, hv]
  refine ⟨fun hd ht hlt => ?_, fun ht hge => ?_, fun hd => ?_, fun hv hfr => ?_⟩
  · have hvalid : is_cache_valid c now = true := by
      simp [is_cache_valid, hd, ht, hdur, hlt]
    simp [get_cached_or_fresh_data, hvalid, hd]
  · apply fetchedOnInvalid
    rcases hd : c.data with _ | d'
    · simp [is_cache_valid, hd]
    · simp [is_cache_valid, hd, ht, hdur, not_lt.mpr hge]
  · apply fetchedOnInvalid
    simp [is_cache_valid, hd]
  · subst hfr
    simp [get_cached_or_fresh_data, hv]

/-- C7 (witness): a read at 100 of a payload stored at 0 (age 100 < 300)
returns the stored payload without fetching, even though the pending
fetch would have failed. -/
theorem cache_freshness_witness :
    get_cached_or_fresh_data
        { data := some exPayload, timestamp := some 0, cache_duration := 300 }
        100 (.error .other) "T" "A" =
      { result := .ok exPayload
        cache := { data := some exPayload, timestamp := some 0,
                   cache_duration := 300 }
        fetched := false } :=
  (cache_freshness_read_path
    { data := some exPayload, timestamp := some 0, cache_duration := 300 }
    100 0 exPayload (.error .other) "T" "A" [] rfl).1 rfl rfl (by norm_num)

/-- C9.  Every dispatch attempt appends exactly one entry to the tweet
history; the surviving entries are a suffix of the old history plus the
new entry (existing entries are never mutated, the oldest is evicted
first); and from any history within the 20-entry bound the history stays
within the bound. -/
theorem tweet_history_append_bounded (test_mode : Bool) (v2 v1 : PublishResult)
    (tweet_text : String) (history : List TweetEntry)
    (hlen : history.length ≤ 20) :
    ∃ e : TweetEntry,
      post_tweet test_mode v2 v1 tweet_text history =
        (if history.length = 20 then history.tail else history) ++ [e] ∧
      (post_tweet test_mode v2 v1 tweet_text history).length ≤ 20 ∧
      post_tweet test_mode v2 v1 tweet_text history <:+ history ++ [e] := by
  refine ⟨⟨tweet_entry_status test_mode v2 v1, tweet_text⟩, ?_⟩
  simp only [post_tweet]
  exact append_one_trim history ⟨tweet_entry_status test_mode v2 v1, tweet_text⟩ hlen

/-- C9 (witness): one dispatch attempt from a full 20-entry history in
test mode appends the test entry and evicts the oldest. -/
theorem tweet_history_witness :
    ∃ e : TweetEntry,
      post_tweet true .ok .ok "hello"
          (List.replicate 20 { status := .failed, text := "o" }) =
        (if (List.replicate 20
              ({ status := .failed, text := "o" } : TweetEntry)).length = 20
         then (List.replicate 20
              ({ status := .failed, text := "o" } : TweetEntry)).tail
         else List.replicate 20 { status := .failed, text := "o" }) ++ [e] ∧
      (post_tweet true .ok .ok "hello"
          (List.replicate 20 { status := .failed, text := "o" })).length ≤ 20 ∧
      post_tweet true .ok .ok "hello"
          (List.replicate 20 { status := .failed, text := "o" }) <:+
        List.replicate 20 { status := .failed, text := "o" } ++ [e] :=
  tweet_history_append_bounded true .ok .ok "hello"
    (List.replicate 20 { status := .failed, text := "o" }) (by simp)

/-- C10.  `get_daily_transfer_totals` is total in the embedding: it
always returns a `tao_in`/`tao_out` pair of numbers, that pair is either
the zeros pair or the value of a successful run of the body over provided
pages, it is the zeros pair whenever no page list was provided (the
cache branch hands the cached summary dict to the classifier, which
errors, and the no-source branch returns zeros directly), and it is the
zeros pair whenever the body errors internally (for example on a
malformed amount field). -/
theorem daily_totals_total_and_zero_on_error (existing_data : Option (List Page))
    (cache_has_fresh_data : Bool) (treasury address : String) :
    (get_daily_transfer_totals existing_data cache_has_fresh_data treasury
        address = { tao_in := 0, tao_out := 0 } ∨
     ∃ pages, existing_data = some pages ∧
       daily_totals_body pages treasury address =
         .ok (get_daily_transfer_totals existing_data cache_has_fresh_data
           treasury address)) ∧
    (existing_data = none →
       get_daily_transfer_totals existing_data cache_has_fresh_data treasury
         address = { tao_in := 0, tao_out := 0 }) ∧
    (∀ pages, existing_data = some pages →
       daily_totals_body pages treasury address = .error () →
       get_daily_transfer_totals existing_data cache_has_fresh_data treasury
         address = { tao_in := 0, tao_out := 0 }) := by
  rcases existing_data with _ | pages
  · refine ⟨Or.inl ?_, fun _ => ?_, fun pages h => absurd h (by simp)⟩ <;>
      · rcases cache_has_fresh_data with _ | _ <;> rfl
  · by_cases hemp : pages.isEmpty
    · refine ⟨Or.inl ?_, fun h => absurd h (by simp), fun pages' hp herr => ?_⟩
      · rcases cache_has_fresh_data with _ | _ <;>
          simp [get_daily_transfer_totals, hemp]
      · obtain rfl : pages' = pages := by injection hp.symm
        rcases cache_has_fresh_data with _ | _ <;>
          simp [get_daily_transfer_totals, hemp]
    · rcases hbody : daily_totals_body pages treasury address with e | t
      · refine ⟨Or.inl ?_, fun h => absurd h (by simp), fun pages' hp _ => ?_⟩
        · simp [get_daily_transfer_totals, hemp, hbody]
        · obtain rfl : pages' = pages := by injection hp.symm
          simp [get_daily_transfer_totals, hemp, hbody]
      · refine ⟨Or.inr ⟨pages, rfl, ?_⟩, fun h => absurd h (by simp),
          fun pages' hp herr => ?_⟩
        · simp [get_daily_transfer_totals, hemp, hbody]
        · obtain rfl : pages' = pages := by injection hp.symm
          rw [hbody] at herr
          exact absurd herr (by simp)

end TxTracker
